import Mathlib

/-!
Shallow embedding of the staged configuration pipeline of `src/main_tenpy.py`
(AutoTeNPyWithSSH): the yaml-backed configuration document, the four
configuration stages (`spinhalf_lattice_config`, `spinhalf_model_config`,
`spinhalf_initial_state`, `dmrg_and_measu_config`) and the run dispatcher
(`dmrg_run`).  Python floats are modelled as exact rationals, the yaml store
as a map from paths to structured documents, and the external tenpy model
factory, the process-wide random source and the solver as explicit oracle
parameters.
-/

/-- A scalar yaml value as written by the pipeline (strings, Python ints,
Python floats modelled as rationals, booleans, and `None`/null). -/
inductive Value where
  | str (s : String)
  | int (n : Int)
  | rat (q : ℚ)
  | bool (b : Bool)
  | null
deriving DecidableEq

/-- The `model_params` mapping: an insertion-ordered string-keyed dictionary,
as a Python `dict` is. -/
abbrev MP := List (String × Value)

/-- `m[k]` lookup on a params dictionary. -/
def getKey : MP → String → Option Value
  | [], _ => none
  | e :: m, k => if e.1 = k then some e.2 else getKey m k

/-- `m[k] = v` on a params dictionary: replace in place if the key is
present, append otherwise (Python `dict` assignment). -/
def setKey : MP → String → Value → MP
  | [], k, v => [(k, v)]
  | e :: m, k, v => if e.1 = k then (k, v) :: setKey m k v else e :: setKey m k v

/-- `m.pop(k, None)` on a params dictionary: drop the entry for `k`. -/
def popKey : MP → String → MP
  | [], _ => []
  | e :: m, k => if e.1 = k then popKey m k else e :: popKey m k

/-- The nested product-state array produced by `np.reshape(...).tolist()`:
nested lists of per-site labels. -/
inductive PState where
  | leaf (s : String)
  | node (children : List PState)

/-- Split a list into `n` consecutive chunks of `k` elements each
(the way `np.reshape` slices the flat row-major buffer). -/
def chunksN : Nat → Nat → List String → List (List String)
  | 0, _, _ => []
  | n + 1, k, xs => xs.take k :: chunksN n k (xs.drop k)

/-- Row-major nesting of a flat buffer into a multi-dimensional array,
as `np.reshape(shape)` arranges elements. -/
def nest : List Nat → List String → PState
  | [], xs =>
    match xs with
    | [s] => PState.leaf s
    | _ => PState.node []
  | d :: ds, xs => PState.node ((chunksN d ds.prod xs).map (fun c => nest ds c))

/-- `np.reshape(shape)`: succeeds exactly when the flat length matches the
product of the requested extents, else raises. -/
def reshape (shape : List Nat) (xs : List String) : Option PState :=
  if xs.length = shape.prod then some (nest shape xs) else none

mutual
/-- The flat row-major sequence of labels of a nested product state. -/
def PState.leaves : PState → List String
  | PState.leaf s => [s]
  | PState.node l => leavesList l
/-- Flat label sequence of a list of nested product states. -/
def leavesList : List PState → List String
  | [] => []
  | p :: ps => p.leaves ++ leavesList ps
end

mutual
/-- Whether a nested product state has exactly the given multi-dimensional
shape (labels at depth `shape.length`, each level of the declared extent). -/
def PState.hasShape : PState → List Nat → Bool
  | PState.leaf _, [] => true
  | PState.leaf _, _ :: _ => false
  | PState.node _, [] => false
  | PState.node l, d :: ds => (l.length == d) && listHasShape l ds
/-- Whether every member of a list of nested states has the given shape. -/
def listHasShape : List PState → List Nat → Bool
  | [], _ => true
  | p :: ps, ds => p.hasShape ds && listHasShape ps ds
end

/-- The `trunc_params` block written by stage 4. -/
structure TruncParams where
  chi_max : Int
  svd_min : ℚ

/-- The `algorithm_params` section written by stage 4. -/
structure AlgoParams where
  algorithm : String
  max_sweeps : Int
  mixer : Bool
  trunc_params : TruncParams

/-- One entry of the `connect_measurements` list written by stage 4. -/
structure Meas where
  target : String
  func : String
  args : List (String × String)

/-- The `output_filename_params` section written by stage 4. -/
structure OutParams where
  prefixStr : String
  suffix : String

/-- The `initial_state_params` section written by stage 3. -/
structure ISParams where
  method : Option String
  product_state : Option PState

/-- The persisted configuration document: fixed top-level sections of the
yaml file, each absent until some stage writes it. -/
structure Doc where
  model_class : Option String := none
  model_params : Option MP := none
  initial_state_params : Option ISParams := none
  algorithm_params : Option AlgoParams := none
  simulation_class : Option String := none
  measure_initial : Option Bool := none
  connect_measurements : Option (List Meas) := none
  output_filename_params : Option OutParams := none

/-- The empty document created by `load_yaml` on first touch of a path. -/
def emptyDoc : Doc := {}

/-- The yaml store: structured document content per path. -/
abbrev FS := String → Option Doc

/-- A store with no files. -/
def emptyFS : FS := fun _ => none

/-- Write a document at a path. -/
def updateFS (fs : FS) (path : String) (d : Doc) : FS :=
  fun p => if p = path then some d else fs p

/-- `load_yaml`: return the document at `path`; if the file is absent, create
it holding the empty document and return that. -/
def loadYaml (path : String) (fs : FS) : Doc × FS :=
  match fs path with
  | some d => (d, fs)
  | none => (emptyDoc, updateFS fs path emptyDoc)

/-- `dump_yaml`: overwrite the file at `path` with the full document. -/
def dumpYaml (data : Doc) (path : String) (fs : FS) : FS :=
  updateFS fs path data

/-- Error kinds surfaced by the pipeline (`ValueError` messages of the
source, plus the errors propagated from the external collaborators). -/
inductive Err where
  | invalidLatticeType
  | invalidBoundaryCondition
  | modelConstructionError
  | unsupportedConservationLaw
  | invalidCharge
  | inconsistentCharge
  | reshapeError
  | documentIOError
  | keyError
deriving DecidableEq

/-- `_ALLOWED_LATTICES_1D`. -/
def allowedLattices1D : List String := ["Chain"]

/-- `_ALLOWED_LATTICES_2D`. -/
def allowedLattices2D : List String := ["Square", "Triangular", "Honeycomb", "Kagome"]

/-- `_ALLOWED_BC`. -/
def allowedBC : List String := ["open", "periodic"]

/-- Dimension of a lattice type: 1 for the 1-D family, 2 for the 2-D family,
none for an unsupported type. -/
def latticeDim (lattice_type : String) : Option Nat :=
  if lattice_type ∈ allowedLattices1D then some 1
  else if lattice_type ∈ allowedLattices2D then some 2
  else none

/-- Membership of an optional boundary condition in `_ALLOWED_BC`
(Python `bc_y not in _ALLOWED_BC` with `bc_y` possibly `None`). -/
def bcOk : Option String → Bool
  | some b => decide (b ∈ allowedBC)
  | none => false

/-- An optional Python int as a yaml value (`None` becomes null). -/
def optIntVal : Option Int → Value
  | some n => Value.int n
  | none => Value.null

/-- An optional Python string as a yaml value (`None` becomes null). -/
def optStrVal : Option String → Value
  | some s => Value.str s
  | none => Value.null

/-- What the external tenpy model factory reports about the constructed
model object: site count `lat.N_sites`, native shape `lat.shape`, and the
conservation law `lat.site(0).conserve`. -/
structure ModelInfo where
  N_sites : Nat
  shape : List Nat
  conserve : Option String
deriving DecidableEq

/-- The external model factory: `eval(f"tenpy.models.{model_class}(params)")`
abstracted as an oracle from the stored `model_class` tag (possibly absent)
and the current `model_params` to the constructed model's data, or an error
(construction failure, or the `KeyError` of a missing tag). -/
abbrev Construct := Option String → MP → Except Err ModelInfo

/-- The shared stage-1 writes: model tag keys `lattice`, `S = 0.5` and
`bc_MPS = "finite"` upserted into the current `model_params`. -/
def stage1_mpCommon (mp0 : MP) (lattice_type : String) : MP :=
  setKey (setKey (setKey mp0 "lattice" (Value.str lattice_type))
    "S" (Value.rat (1/2))) "bc_MPS" (Value.str "finite")

/-- The stage-1 `model_params` for a 1-D lattice: write `L` and `bc_x`,
delete the 2-D keys `Lx`, `Ly`, `bc_y`. -/
def stage1_mp1D (mp0 : MP) (lattice_type : String) (Lx : Int) (bc_x : String) : MP :=
  popKey (popKey (popKey
    (setKey (setKey (stage1_mpCommon mp0 lattice_type) "L" (Value.int Lx))
      "bc_x" (Value.str bc_x)) "Lx") "Ly") "bc_y"

/-- The stage-1 `model_params` for a 2-D lattice: write `Lx`, `Ly`, `bc_x`,
`bc_y`, delete the 1-D key `L`. -/
def stage1_mp2D (mp0 : MP) (lattice_type : String) (Lx : Int) (Ly : Option Int)
    (bc_x : String) (bc_y : Option String) : MP :=
  popKey (setKey (setKey (setKey (setKey (stage1_mpCommon mp0 lattice_type)
    "Lx" (Value.int Lx)) "Ly" (optIntVal Ly))
    "bc_x" (Value.str bc_x)) "bc_y" (optStrVal bc_y)) "L"

/-- Stage 1, `spinhalf_lattice_config`: validate lattice type and boundary
conditions, then write the model tag, spin constant, MPS flag and the
dimension-appropriate lattice keys, deleting the other dimension's keys. -/
def spinhalf_lattice_config (lattice_type : String) (Lx : Int) (Ly : Option Int)
    (bc_x : String) (bc_y : Option String) (path : String) (fs : FS) :
    FS × Except Err Unit :=
  match latticeDim lattice_type with
  | none => (fs, Except.error Err.invalidLatticeType)
  | some d =>
    let Ly := if d = 1 then none else Ly
    let bc_y := if d = 1 then none else bc_y
    if bc_x ∉ allowedBC then (fs, Except.error Err.invalidBoundaryCondition)
    else if d = 2 ∧ bcOk bc_y = false then (fs, Except.error Err.invalidBoundaryCondition)
    else
      let data := (loadYaml path fs).1
      let fs1 := (loadYaml path fs).2
      let mp0 := data.model_params.getD []
      let mp2 :=
        if d = 1 then stage1_mp1D mp0 lattice_type Lx bc_x
        else stage1_mp2D mp0 lattice_type Lx Ly bc_x bc_y
      let data2 := { data with model_class := some "SpinModel", model_params := some mp2 }
      (dumpYaml data2 path fs1, Except.ok ())

/-- The merged `model_params` stage 2 builds: every entry of `params_dict`
upserted in order, then `conserve` set to `"best"`. -/
def stage2_mergedMP (data : Doc) (params_dict : List (String × ℚ)) : MP :=
  setKey (params_dict.foldl (fun m kv => setKey m kv.1 (Value.rat kv.2))
    (data.model_params.getD [])) "conserve" (Value.str "best")

/-- Stage 2, `spinhalf_model_config`: merge the given couplings into
`model_params`, request `conserve = "best"`, persist, and only then
construct the external model to read back the conservation law in effect. -/
def spinhalf_model_config (construct : Construct) (params_dict : List (String × ℚ))
    (path : String) (fs : FS) : FS × Except Err (Option String) :=
  let data := (loadYaml path fs).1
  let fs1 := (loadYaml path fs).2
  let mp := stage2_mergedMP data params_dict
  let data2 := { data with model_params := some mp }
  let fs2 := dumpYaml data2 path fs1
  match construct data2.model_class mp with
  | Except.error e => (fs2, Except.error e)
  | Except.ok info => (fs2, Except.ok info.conserve)

/-- `2 * tot_charge` is (exactly) an integer: the Python
`math.isclose(2 * tot_charge, int(2 * tot_charge))` check on exact values. -/
def isHalfInt (q : ℚ) : Bool := (2 * q).den == 1

/-- The stage 3 pre-load charge validity test: a given charge that is not an
integer multiple of one half is rejected. -/
def chargeInvalid : Option ℚ → Bool
  | none => false
  | some q => !(isHalfInt q)

/-- Stage 3 occupation counts: with no charge, the random draw `randUp` from
`[0, N)` and its complement; with charge `q`, `n_up = q + N/2` and
`n_down = -q + N/2`, which must both be (exactly) integers. -/
def stage3_counts : Option ℚ → Nat → Nat → Except Err (Int × Int)
  | none, randUp, N => Except.ok ((randUp : Int), (N : Int) - (randUp : Int))
  | some q, _, N =>
    let n_up : ℚ := q + (N : ℚ) / 2
    let n_dn : ℚ := -q + (N : ℚ) / 2
    if n_up.den = 1 ∧ n_dn.den = 1 then Except.ok (n_up.num, n_dn.num)
    else Except.error Err.inconsistentCharge

/-- The part of stage 3 after `load_yaml`: reconstruct the model, check the
conservation law, compute counts, build and shuffle the flat label list,
reshape it to the lattice shape and persist it under `initial_state_params`. -/
def stage3_afterLoad (construct : Construct) (shuffle : List String → List String)
    (randUp : Nat) (tot_charge : Option ℚ) (path : String) (data : Doc) (fs1 : FS) :
    FS × Except Err Unit :=
  match construct data.model_class (data.model_params.getD []) with
  | Except.error e => (fs1, Except.error e)
  | Except.ok info =>
    if ¬ (info.conserve = some "Sz" ∨ info.conserve = none) then
      (fs1, Except.error Err.unsupportedConservationLaw)
    else
      match stage3_counts tot_charge randUp info.N_sites with
      | Except.error e => (fs1, Except.error e)
      | Except.ok (n_up, n_dn) =>
        let init := List.replicate n_up.toNat "up" ++ List.replicate n_dn.toNat "down"
        match reshape info.shape (shuffle init) with
        | none => (fs1, Except.error Err.reshapeError)
        | some ps =>
          let isp := { data.initial_state_params.getD ⟨none, none⟩ with
            method := some "lat_product_state", product_state := some ps }
          (dumpYaml { data with initial_state_params := some isp } path fs1, Except.ok ())

/-- Stage 3, `spinhalf_initial_state`: reject a non-half-integer charge
before touching the document, then load and run the initial-state
construction.  `shuffle` stands for `np.random.shuffle` and `randUp` for the
`np.random.randint(n_sites)` draw of the unconstrained branch. -/
def spinhalf_initial_state (construct : Construct) (shuffle : List String → List String)
    (randUp : Nat) (tot_charge : Option ℚ) (path : String) (fs : FS) :
    FS × Except Err Unit :=
  if chargeInvalid tot_charge then (fs, Except.error Err.invalidCharge)
  else
    stage3_afterLoad construct shuffle randUp tot_charge path
      (loadYaml path fs).1 (loadYaml path fs).2

/-- The fixed `connect_measurements` list written by stage 4. -/
def fixedMeasurements : List Meas :=
  [⟨"tenpy.simulations.measurement", "m_onsite_expectation_value", [("opname", "Sz")]⟩,
   ⟨"psi_method", "wrap correlation_function",
     [("results_key", "<Sz_i Sz_j>"), ("ops1", "Sz"), ("ops2", "Sz")]⟩,
   ⟨"psi_method", "wrap correlation_function",
     [("results_key", "<Sp_i Sm_j>"), ("ops1", "Sp"), ("ops2", "Sm")]⟩]

/-- Stage 4, `dmrg_and_measu_config`: write the fixed solver identifier,
the given caps, the disabled mixer, the truncation tolerance, the fixed
measurement set and the output filename convention. -/
def dmrg_and_measu_config (chi_max : Int) (max_sweeps : Int) (path : String) (fs : FS) :
    FS × Except Err Unit :=
  let data := (loadYaml path fs).1
  let fs1 := (loadYaml path fs).2
  let data2 := { data with
    simulation_class := some "GroundStateSearch",
    algorithm_params := some ⟨"TwoSiteDMRGEngine", max_sweeps, false,
      ⟨chi_max, 1 / 100000000⟩⟩,
    measure_initial := some false,
    connect_measurements := some fixedMeasurements,
    output_filename_params := some ⟨"result", ".h5"⟩ }
  (dumpYaml data2 path fs1, Except.ok ())

/-- Stage 5, `dmrg_run`: read the document (failing if the file is absent),
hand it to the external solver (`runSim`), and derive the result and log
paths from the filename convention.  It never writes the document. -/
def dmrg_run (runSim : Doc → Except Err Unit) (path : String) (fs : FS) :
    FS × Except Err (String × String) :=
  match fs path with
  | none => (fs, Except.error Err.documentIOError)
  | some data =>
    match runSim data with
    | Except.error e => (fs, Except.error e)
    | Except.ok _ =>
      match data.output_filename_params with
      | none => (fs, Except.error Err.keyError)
      | some ofp => (fs, Except.ok (ofp.prefixStr ++ ofp.suffix, ofp.prefixStr ++ ".log"))

/-! ### Dictionary lemmas -/

theorem getKey_setKey_self (m : MP) (k : String) (v : Value) :
    getKey (setKey m k v) k = some v := by
  induction m with
  | nil => simp [setKey, getKey]
  | cons e m ih =>
    by_cases h : e.1 = k
    · simp [setKey, h, getKey]
    · simp [setKey, h, getKey, ih]

theorem getKey_setKey_ne (m : MP) (k k' : String) (v : Value) (h : k ≠ k') :
    getKey (setKey m k v) k' = getKey m k' := by
  induction m with
  | nil => simp [setKey, getKey, h]
  | cons e m ih =>
    by_cases he : e.1 = k
    · have he' : e.1 ≠ k' := by rw [he]; exact h
      simp [setKey, he, getKey, h, he', ih]
    · by_cases he' : e.1 = k'
      · simp [setKey, he, getKey, he', Ne.symm h]
      · simp [setKey, he, getKey, he', ih]

theorem getKey_popKey_self (m : MP) (k : String) : getKey (popKey m k) k = none := by
  induction m with
  | nil => simp [popKey, getKey]
  | cons e m ih =>
    by_cases h : e.1 = k
    · simp [popKey, h, ih]
    · simp [popKey, h, getKey, ih]

theorem getKey_popKey_ne (m : MP) (k k' : String) (h : k ≠ k') :
    getKey (popKey m k) k' = getKey m k' := by
  induction m with
  | nil => simp [popKey]
  | cons e m ih =>
    by_cases he : e.1 = k
    · have he' : e.1 ≠ k' := by rw [he]; exact h
      simp [popKey, he, getKey, he', ih, h]
    · by_cases he' : e.1 = k'
      · simp [popKey, he, getKey, he', Ne.symm h]
      · simp [popKey, he, getKey, he', ih]

/-! ### Reshape lemmas -/

theorem chunksN_length (n k : Nat) (xs : List String) :
    (chunksN n k xs).length = n := by
  induction n generalizing xs with
  | zero => simp [chunksN]
  | succ n ih => simp [chunksN, ih]

theorem leavesList_chunks (ds : List Nat)
    (ih : ∀ ys : List String, ys.length = ds.prod → (nest ds ys).leaves = ys)
    (d : Nat) (xs : List String) (h : xs.length = d * ds.prod) :
    leavesList ((chunksN d ds.prod xs).map (fun c => nest ds c)) = xs := by
  induction d generalizing xs with
  | zero =>
    rw [Nat.zero_mul, List.length_eq_zero] at h
    subst h
    simp [chunksN, leavesList]
  | succ d ihd =>
    have hk : ds.prod ≤ xs.length := by
      rw [h, Nat.succ_mul]; exact Nat.le_add_left _ _
    have htake : (xs.take ds.prod).length = ds.prod := by
      rw [List.length_take]; exact Nat.min_eq_left hk
    have hdrop : (xs.drop ds.prod).length = d * ds.prod := by
      rw [List.length_drop, h, Nat.succ_mul, Nat.add_sub_cancel]
    simp only [chunksN, List.map_cons, leavesList]
    rw [ih _ htake, ihd _ hdrop, List.take_append_drop]

theorem leaves_nest (shape : List Nat) (xs : List String)
    (h : xs.length = shape.prod) : (nest shape xs).leaves = xs := by
  induction shape generalizing xs with
  | nil =>
    simp only [List.prod_nil] at h
    obtain ⟨a, rfl⟩ := List.length_eq_one.mp h
    simp [nest, PState.leaves]
  | cons d ds ih =>
    rw [List.prod_cons] at h
    simp only [nest, PState.leaves]
    exact leavesList_chunks ds ih d xs h

theorem listHasShape_chunks (ds : List Nat)
    (ih : ∀ ys : List String, ys.length = ds.prod → (nest ds ys).hasShape ds = true)
    (d : Nat) (xs : List String) (h : xs.length = d * ds.prod) :
    listHasShape ((chunksN d ds.prod xs).map (fun c => nest ds c)) ds = true := by
  induction d generalizing xs with
  | zero => simp [chunksN, listHasShape]
  | succ d ihd =>
    have hk : ds.prod ≤ xs.length := by
      rw [h, Nat.succ_mul]; exact Nat.le_add_left _ _
    have htake : (xs.take ds.prod).length = ds.prod := by
      rw [List.length_take]; exact Nat.min_eq_left hk
    have hdrop : (xs.drop ds.prod).length = d * ds.prod := by
      rw [List.length_drop, h, Nat.succ_mul, Nat.add_sub_cancel]
    simp only [chunksN, List.map_cons, listHasShape, Bool.and_eq_true]
    exact ⟨ih _ htake, ihd _ hdrop⟩

theorem hasShape_nest (shape : List Nat) (xs : List String)
    (h : xs.length = shape.prod) : (nest shape xs).hasShape shape = true := by
  induction shape generalizing xs with
  | nil =>
    simp only [List.prod_nil] at h
    obtain ⟨a, rfl⟩ := List.length_eq_one.mp h
    simp [nest, PState.hasShape]
  | cons d ds ih =>
    rw [List.prod_cons] at h
    simp only [nest, PState.hasShape, Bool.and_eq_true, beq_iff_eq,
      List.length_map, chunksN_length, eq_self_iff_true, true_and]
    exact listHasShape_chunks ds ih d xs h

/-! ### Claim theorems -/

/-- C8: persisting a document with `dump_yaml` and reloading it with
`load_yaml` from the same path yields a structurally identical document (and
leaves the store unchanged). -/
theorem dump_load_roundtrip (d : Doc) (path : String) (fs : FS) :
    loadYaml path (dumpYaml d path fs) = (d, dumpYaml d path fs) := by
  simp [loadYaml, dumpYaml, updateFS]

/-- C6: a stage-1 call with lattice type "Chain", primary extent 4 and the
default boundary conditions, starting from an empty store, persists
`model_params` equal to exactly
`{lattice: "Chain", S: 0.5, bc_MPS: "finite", L: 4, bc_x: "open"}`. -/
theorem stage1_chain_exact_model_params :
    ((spinhalf_lattice_config "Chain" 4 none "open" (some "periodic")
        "config.yml" emptyFS).1 "config.yml").map Doc.model_params =
      some (some [("lattice", Value.str "Chain"), ("S", Value.rat (1/2)),
        ("bc_MPS", Value.str "finite"), ("L", Value.int 4),
        ("bc_x", Value.str "open")]) := by
  rfl

/-- C7 (counterexample): stage 4 performs no positivity validation: with the
non-positive bond-dimension cap `-1` and sweep count `0` it succeeds and
writes `chi_max = -1` instead of failing. -/
theorem stage4_accepts_nonpositive :
    (dmrg_and_measu_config (-1) 0 "config.yml" emptyFS).2 = Except.ok () ∧
    ((dmrg_and_measu_config (-1) 0 "config.yml" emptyFS).1 "config.yml").map
      Doc.algorithm_params =
      some (some ⟨"TwoSiteDMRGEngine", 0, false, ⟨-1, 1 / 100000000⟩⟩) := by
  exact ⟨rfl, rfl⟩

/-- C7 (amended): stage 4 validates nothing: for every integer bond-dimension
cap and sweep count it succeeds and writes the fixed solver identifier,
truncation tolerance, disabled mixer, fixed measurement set and filename
convention, with the two caps stored as given. -/
theorem stage4_always_writes_fixed_config (chi_max max_sweeps : Int)
    (path : String) (fs : FS) :
    (dmrg_and_measu_config chi_max max_sweeps path fs).2 = Except.ok () ∧
    (dmrg_and_measu_config chi_max max_sweeps path fs).1 path =
      some { (loadYaml path fs).1 with
        simulation_class := some "GroundStateSearch",
        algorithm_params := some ⟨"TwoSiteDMRGEngine", max_sweeps, false,
          ⟨chi_max, 1 / 100000000⟩⟩,
        measure_initial := some false,
        connect_measurements := some fixedMeasurements,
        output_filename_params := some ⟨"result", ".h5"⟩ } := by
  refine ⟨rfl, ?_⟩
  simp [dmrg_and_measu_config, dumpYaml, updateFS]

/-- C10: stage 2 modifies only the `model_params` section: whatever the prior
document at the path (the empty one if the file was absent) and the parameter
mapping, every other top-level section of the persisted result equals that of
the prior document. -/
theorem stage2_frame_other_sections (construct : Construct)
    (params_dict : List (String × ℚ)) (path : String) (fs : FS) :
    ∃ d : Doc, (spinhalf_model_config construct params_dict path fs).1 path = some d ∧
      d.model_class = (loadYaml path fs).1.model_class ∧
      d.initial_state_params = (loadYaml path fs).1.initial_state_params ∧
      d.algorithm_params = (loadYaml path fs).1.algorithm_params ∧
      d.simulation_class = (loadYaml path fs).1.simulation_class ∧
      d.measure_initial = (loadYaml path fs).1.measure_initial ∧
      d.connect_measurements = (loadYaml path fs).1.connect_measurements ∧
      d.output_filename_params = (loadYaml path fs).1.output_filename_params := by
  refine ⟨{ (loadYaml path fs).1 with
    model_params := some (stage2_mergedMP (loadYaml path fs).1 params_dict) }, ?_, by
      simp, by simp, by simp, by simp, by simp, by simp, by simp⟩
  unfold spinhalf_model_config
  cases h : construct ({ (loadYaml path fs).1 with
      model_params := some (stage2_mergedMP (loadYaml path fs).1 params_dict) } : Doc).model_class
      (stage2_mergedMP (loadYaml path fs).1 params_dict) with
  | error e => simp [h, dumpYaml, updateFS]
  | ok info => simp [h, dumpYaml, updateFS]

/-! ### Stage-1 reduction lemmas -/

theorem stage1_invalid_type (lt : String) (Lx : Int) (Ly : Option Int)
    (bc_x : String) (bc_y : Option String) (path : String) (fs : FS)
    (h1 : lt ∉ allowedLattices1D) (h2 : lt ∉ allowedLattices2D) :
    spinhalf_lattice_config lt Lx Ly bc_x bc_y path fs =
      (fs, Except.error Err.invalidLatticeType) := by
  have hd : latticeDim lt = none := by simp [latticeDim, h1, h2]
  unfold spinhalf_lattice_config
  rw [hd]

theorem stage1_invalid_bcx (lt : String) (Lx : Int) (Ly : Option Int)
    (bc_x : String) (bc_y : Option String) (path : String) (fs : FS)
    (d : Nat) (hd : latticeDim lt = some d) (hbc : bc_x ∉ allowedBC) :
    spinhalf_lattice_config lt Lx Ly bc_x bc_y path fs =
      (fs, Except.error Err.invalidBoundaryCondition) := by
  unfold spinhalf_lattice_config
  rw [hd]
  simp [hbc]

theorem stage1_invalid_bcy (lt : String) (Lx : Int) (Ly : Option Int)
    (bc_x : String) (bc_y : Option String) (path : String) (fs : FS)
    (h2 : lt ∈ allowedLattices2D) (hbc : bc_x ∈ allowedBC) (hby : bcOk bc_y = false) :
    spinhalf_lattice_config lt Lx Ly bc_x bc_y path fs =
      (fs, Except.error Err.invalidBoundaryCondition) := by
  have h1 : lt ∉ allowedLattices1D := by
    simp only [allowedLattices2D, List.mem_cons, List.mem_singleton,
      List.not_mem_nil, or_false] at h2
    rcases h2 with rfl | rfl | rfl | rfl <;> decide
  have hd : latticeDim lt = some 2 := by simp [latticeDim, h1, h2]
  unfold spinhalf_lattice_config
  rw [hd]
  simp [hbc, hby]

theorem stage1_eq_1D (lt : String) (Lx : Int) (Ly : Option Int)
    (bc_x : String) (bc_y : Option String) (path : String) (fs : FS)
    (h1 : lt ∈ allowedLattices1D) (hbc : bc_x ∈ allowedBC) :
    spinhalf_lattice_config lt Lx Ly bc_x bc_y path fs =
      (dumpYaml { (loadYaml path fs).1 with
          model_class := some "SpinModel",
          model_params := some (stage1_mp1D
            ((loadYaml path fs).1.model_params.getD []) lt Lx bc_x) } path
        (loadYaml path fs).2, Except.ok ()) := by
  have hd : latticeDim lt = some 1 := by simp [latticeDim, h1]
  unfold spinhalf_lattice_config
  rw [hd]
  simp [hbc]

theorem stage1_eq_2D (lt : String) (Lx : Int) (Ly : Option Int)
    (bc_x : String) (bc_y : Option String) (path : String) (fs : FS)
    (h2 : lt ∈ allowedLattices2D) (hbc : bc_x ∈ allowedBC) (hby : bcOk bc_y = true) :
    spinhalf_lattice_config lt Lx Ly bc_x bc_y path fs =
      (dumpYaml { (loadYaml path fs).1 with
          model_class := some "SpinModel",
          model_params := some (stage1_mp2D
            ((loadYaml path fs).1.model_params.getD []) lt Lx Ly bc_x bc_y) } path
        (loadYaml path fs).2, Except.ok ()) := by
  have h1 : lt ∉ allowedLattices1D := by
    simp only [allowedLattices2D, List.mem_cons, List.mem_singleton,
      List.not_mem_nil, or_false] at h2
    rcases h2 with rfl | rfl | rfl | rfl <;> decide
  have hd : latticeDim lt = some 2 := by simp [latticeDim, h1, h2]
  unfold spinhalf_lattice_config
  rw [hd]
  simp [hbc, hby]

/-- C9: for a 1-D lattice type, stage 1 discards the `Ly` and `bc_y`
arguments before boundary-condition validation: the call behaves exactly as
if they were absent, it succeeds for any `bc_y` (given a valid `bc_x`), and
the persisted `model_params` holds neither `Ly` nor `bc_y`. -/
theorem stage1_oneD_ignores_secondary (lt : String) (Lx : Int) (Ly : Option Int)
    (bc_x : String) (bc_y : Option String) (path : String) (fs : FS)
    (h1 : lt ∈ allowedLattices1D) (hbc : bc_x ∈ allowedBC) :
    spinhalf_lattice_config lt Lx Ly bc_x bc_y path fs =
      spinhalf_lattice_config lt Lx none bc_x none path fs ∧
    (spinhalf_lattice_config lt Lx Ly bc_x bc_y path fs).2 = Except.ok () ∧
    ∃ d mp, (spinhalf_lattice_config lt Lx Ly bc_x bc_y path fs).1 path = some d ∧
      d.model_params = some mp ∧ getKey mp "Ly" = none ∧ getKey mp "bc_y" = none := by
  rw [stage1_eq_1D lt Lx Ly bc_x bc_y path fs h1 hbc,
    stage1_eq_1D lt Lx none bc_x none path fs h1 hbc]
  refine ⟨rfl, rfl,
    { (loadYaml path fs).1 with
      model_class := some "SpinModel",
      model_params := some (stage1_mp1D
        ((loadYaml path fs).1.model_params.getD []) lt Lx bc_x) },
    stage1_mp1D ((loadYaml path fs).1.model_params.getD []) lt Lx bc_x,
    by simp [dumpYaml, updateFS], rfl, ?_, ?_⟩
  · unfold stage1_mp1D
    rw [getKey_popKey_ne _ _ _ (by decide), getKey_popKey_self]
  · exact getKey_popKey_self _ _

/-- C3: after every successful stage-1 call, the persisted `model_params`
holds exactly the dimension-appropriate lattice keys: `L` and `bc_x` with no
`Lx`, `Ly`, `bc_y` for a 1-D type, and `Lx`, `Ly`, `bc_x`, `bc_y` with no `L`
for a 2-D type — whatever the prior document at the path was, in particular
after an earlier stage-1 call of the other dimension. -/
theorem stage1_dimension_keys (lt : String) (Lx : Int) (Ly : Option Int)
    (bc_x : String) (bc_y : Option String) (path : String) (fs : FS)
    (h : (spinhalf_lattice_config lt Lx Ly bc_x bc_y path fs).2 = Except.ok ()) :
    ∃ d mp, (spinhalf_lattice_config lt Lx Ly bc_x bc_y path fs).1 path = some d ∧
      d.model_params = some mp ∧
      ((lt ∈ allowedLattices1D →
        getKey mp "L" = some (Value.int Lx) ∧
        getKey mp "bc_x" = some (Value.str bc_x) ∧
        getKey mp "Lx" = none ∧ getKey mp "Ly" = none ∧ getKey mp "bc_y" = none) ∧
       (lt ∈ allowedLattices2D →
        getKey mp "Lx" = some (Value.int Lx) ∧
        getKey mp "Ly" = some (optIntVal Ly) ∧
        getKey mp "bc_x" = some (Value.str bc_x) ∧
        getKey mp "bc_y" = some (optStrVal bc_y) ∧
        getKey mp "L" = none)) := by
  by_cases hbc : bc_x ∈ allowedBC
  · by_cases h1 : lt ∈ allowedLattices1D
    · rw [stage1_eq_1D lt Lx Ly bc_x bc_y path fs h1 hbc]
      refine ⟨{ (loadYaml path fs).1 with
          model_class := some "SpinModel",
          model_params := some (stage1_mp1D
            ((loadYaml path fs).1.model_params.getD []) lt Lx bc_x) },
        stage1_mp1D ((loadYaml path fs).1.model_params.getD []) lt Lx bc_x,
        by simp [dumpYaml, updateFS], rfl, fun _ => ?_, fun h2 => ?_⟩
      · unfold stage1_mp1D
        refine ⟨?_, ?_, ?_, ?_, ?_⟩
        · rw [getKey_popKey_ne _ _ _ (by decide), getKey_popKey_ne _ _ _ (by decide),
            getKey_popKey_ne _ _ _ (by decide), getKey_setKey_ne _ _ _ _ (by decide),
            getKey_setKey_self]
        · rw [getKey_popKey_ne _ _ _ (by decide), getKey_popKey_ne _ _ _ (by decide),
            getKey_popKey_ne _ _ _ (by decide), getKey_setKey_self]
        · rw [getKey_popKey_ne _ _ _ (by decide), getKey_popKey_ne _ _ _ (by decide),
            getKey_popKey_self]
        · rw [getKey_popKey_ne _ _ _ (by decide), getKey_popKey_self]
        · exact getKey_popKey_self _ _
      · exfalso
        simp only [allowedLattices1D, List.mem_singleton] at h1
        subst h1
        simp [allowedLattices2D] at h2
    · by_cases h2 : lt ∈ allowedLattices2D
      · by_cases hby : bcOk bc_y = true
        · rw [stage1_eq_2D lt Lx Ly bc_x bc_y path fs h2 hbc hby]
          refine ⟨{ (loadYaml path fs).1 with
              model_class := some "SpinModel",
              model_params := some (stage1_mp2D
                ((loadYaml path fs).1.model_params.getD []) lt Lx Ly bc_x bc_y) },
            stage1_mp2D ((loadYaml path fs).1.model_params.getD []) lt Lx Ly bc_x bc_y,
            by simp [dumpYaml, updateFS], rfl, fun h1' => absurd h1' h1, fun _ => ?_⟩
          unfold stage1_mp2D
          refine ⟨?_, ?_, ?_, ?_, ?_⟩
          · rw [getKey_popKey_ne _ _ _ (by decide), getKey_setKey_ne _ _ _ _ (by decide),
              getKey_setKey_ne _ _ _ _ (by decide), getKey_setKey_ne _ _ _ _ (by decide),
              getKey_setKey_self]
          · rw [getKey_popKey_ne _ _ _ (by decide), getKey_setKey_ne _ _ _ _ (by decide),
              getKey_setKey_ne _ _ _ _ (by decide), getKey_setKey_self]
          · rw [getKey_popKey_ne _ _ _ (by decide), getKey_setKey_ne _ _ _ _ (by decide),
              getKey_setKey_self]
          · rw [getKey_popKey_ne _ _ _ (by decide), getKey_setKey_self]
          · exact getKey_popKey_self _ _
        · rw [stage1_invalid_bcy lt Lx Ly bc_x bc_y path fs h2 hbc
            (by revert hby; cases bcOk bc_y <;> simp)] at h
          exact absurd h (by simp)
      · rw [stage1_invalid_type lt Lx Ly bc_x bc_y path fs h1 h2] at h
        exact absurd h (by simp)
  · rcases hd : latticeDim lt with _ | d
    · rw [stage1_invalid_type lt Lx Ly bc_x bc_y path fs ?_ ?_] at h
      · exact absurd h (by simp)
      · intro hmem; simp [latticeDim, hmem] at hd
      · intro hmem
        by_cases hmem1 : lt ∈ allowedLattices1D <;> simp [latticeDim, hmem1, hmem] at hd
    · rw [stage1_invalid_bcx lt Lx Ly bc_x bc_y path fs d hd hbc] at h
      exact absurd h (by simp)

/-! ### Stage-3 reduction lemmas -/

theorem stage3_reduce (construct : Construct) (shuffle : List String → List String)
    (randUp : Nat) (q : ℚ) (path : String) (fs : FS) (info : ModelInfo)
    (hq : isHalfInt q = true)
    (hc : construct (loadYaml path fs).1.model_class
      ((loadYaml path fs).1.model_params.getD []) = Except.ok info)
    (hcons : info.conserve = some "Sz" ∨ info.conserve = none) :
    spinhalf_initial_state construct shuffle randUp (some q) path fs =
      (match stage3_counts (some q) randUp info.N_sites with
       | Except.error e => ((loadYaml path fs).2, Except.error e)
       | Except.ok (n_up, n_dn) =>
         match reshape info.shape
             (shuffle (List.replicate n_up.toNat "up" ++
               List.replicate n_dn.toNat "down")) with
         | none => ((loadYaml path fs).2, Except.error Err.reshapeError)
         | some ps =>
           (dumpYaml { (loadYaml path fs).1 with
               initial_state_params := some
                 ({ (loadYaml path fs).1.initial_state_params.getD ⟨none, none⟩ with
                   method := some "lat_product_state",
                   product_state := some ps }) } path (loadYaml path fs).2,
            Except.ok ())) := by
  unfold spinhalf_initial_state stage3_afterLoad
  have h0 : chargeInvalid (some q) = false := by simp [chargeInvalid, hq]
  rw [h0]
  simp only [Bool.false_eq_true, if_false]
  rw [hc]
  dsimp only
  rw [if_neg (not_not_intro hcons)]

theorem isHalfInt_eq_true (q : ℚ) (h : (2 * q).den = 1) : isHalfInt q = true := by
  simp [isHalfInt, h]

theorem isHalfInt_eq_false (q : ℚ) (h : (2 * q).den ≠ 1) : isHalfInt q = false := by
  simp [isHalfInt, h]

/-- C5: a charge that is not an integer multiple of one half is rejected with
`InvalidCharge` before `load_yaml` is even called: the whole store — in
particular the `initial_state_params` section of the document — is exactly
what it was before the call. -/
theorem stage3_invalid_charge_no_mutation (construct : Construct)
    (shuffle : List String → List String) (randUp : Nat) (q : ℚ)
    (path : String) (fs : FS) (hq : isHalfInt q = false) :
    spinhalf_initial_state construct shuffle randUp (some q) path fs =
      (fs, Except.error Err.invalidCharge) := by
  unfold spinhalf_initial_state
  simp [chargeInvalid, hq]

/-- C5 witness: the charge `0.3` is rejected with `InvalidCharge` and the
store is untouched. -/
theorem stage3_invalid_charge_no_mutation_witness :
    isHalfInt (3/10) = false ∧
    spinhalf_initial_state (fun _ _ => Except.error Err.modelConstructionError)
        id 0 (some (3/10)) "config.yml" emptyFS =
      (emptyFS, Except.error Err.invalidCharge) := by
  have hq : isHalfInt (3/10) = false := isHalfInt_eq_false _ (by norm_num)
  exact ⟨hq, stage3_invalid_charge_no_mutation _ id 0 (3/10) "config.yml" emptyFS hq⟩

/-- The external model factory of the end-to-end scenario: a spin-half chain
of four sites with `Sz` conservation (`N_sites = 4`, native shape `(4,)`). -/
def constChain4 : Construct := fun _ _ => Except.ok ⟨4, [4], some "Sz"⟩

/-- C1 counterexample: with charge `q = -3` and `N = 4`, both
`n_up = q + N/2 = -1` and `n_down = N/2 - q = 5` are integers, so the stage
does not fail with `InconsistentCharge` although `n_up` is negative: the
negative count makes the flat assignment five labels long and the stage
fails with the reshape error instead. -/
theorem stage3_negative_count_not_inconsistent :
    ((-3 : ℚ) + (4 : ℚ) / 2 < 0) ∧
    ((-3 : ℚ) + (4 : ℚ) / 2).den = 1 ∧ (-(-3 : ℚ) + (4 : ℚ) / 2).den = 1 ∧
    (spinhalf_initial_state constChain4 id 0 (some (-3)) "config.yml" emptyFS).2 =
      Except.error Err.reshapeError := by
  refine ⟨by norm_num, by norm_num, by norm_num, ?_⟩
  rw [stage3_reduce constChain4 id 0 (-3) "config.yml" emptyFS ⟨4, [4], some "Sz"⟩
    (isHalfInt_eq_true _ (by norm_num)) rfl (Or.inl rfl)]
  have hcounts : stage3_counts (some (-3)) 0 ((4 : Nat)) =
      Except.ok ((-1 : Int), (5 : Int)) := by
    unfold stage3_counts
    dsimp only
    rw [if_pos (by constructor <;> norm_num)]
    have h1 : ((-3 : ℚ) + ((4 : Nat) : ℚ) / 2).num = -1 := by norm_num
    have h2 : (-(-3 : ℚ) + ((4 : Nat) : ℚ) / 2).num = 5 := by norm_num
    rw [h1, h2]
  rw [hcounts]
  have hres : reshape ([4] : List Nat)
      (id (List.replicate ((-1 : Int)).toNat "up" ++
        List.replicate ((5 : Int)).toNat "down")) = none := by
    simp [reshape]
  dsimp only
  rw [hres]

/-- C1 (amended): for a half-integer charge `q`, stage 3 computes
`n_up = q + N/2` and `n_down = N/2 - q` and fails with `InconsistentCharge`
exactly when one of them is not an integer (non-negativity is not checked);
when it fails this way the store is exactly the post-`load_yaml` store, so
nothing beyond the possible creation of an empty document has been written. -/
theorem stage3_inconsistent_charge_iff (construct : Construct)
    (shuffle : List String → List String) (randUp : Nat) (q : ℚ)
    (path : String) (fs : FS) (info : ModelInfo)
    (hq : isHalfInt q = true)
    (hc : construct (loadYaml path fs).1.model_class
      ((loadYaml path fs).1.model_params.getD []) = Except.ok info)
    (hcons : info.conserve = some "Sz" ∨ info.conserve = none) :
    ((spinhalf_initial_state construct shuffle randUp (some q) path fs).2 =
        Except.error Err.inconsistentCharge ↔
      ¬ ((q + (info.N_sites : ℚ) / 2).den = 1 ∧
         (-q + (info.N_sites : ℚ) / 2).den = 1)) ∧
    ((spinhalf_initial_state construct shuffle randUp (some q) path fs).2 =
        Except.error Err.inconsistentCharge →
      (spinhalf_initial_state construct shuffle randUp (some q) path fs).1 =
        (loadYaml path fs).2) := by
  rw [stage3_reduce construct shuffle randUp q path fs info hq hc hcons]
  by_cases hden : (q + (info.N_sites : ℚ) / 2).den = 1 ∧
      (-q + (info.N_sites : ℚ) / 2).den = 1
  · have hcounts : stage3_counts (some q) randUp info.N_sites =
        Except.ok ((q + (info.N_sites : ℚ) / 2).num,
          (-q + (info.N_sites : ℚ) / 2).num) := by
      unfold stage3_counts
      dsimp only
      rw [if_pos hden]
    rw [hcounts]
    cases hres : reshape info.shape
        (shuffle (List.replicate (q + (info.N_sites : ℚ) / 2).num.toNat "up" ++
          List.replicate (-q + (info.N_sites : ℚ) / 2).num.toNat "down")) with
    | none =>
      dsimp only
      rw [hres]
      simp [hden]
    | some ps =>
      dsimp only
      rw [hres]
      simp [hden]
  · have hcounts : stage3_counts (some q) randUp info.N_sites =
        Except.error Err.inconsistentCharge := by
      unfold stage3_counts
      dsimp only
      rw [if_neg hden]
    rw [hcounts]
    simp [hden]

/-- C1 witness: for the spec's example `q = 2.5`, `N = 4`, the count
`n_up = 4.5` is not an integer, so stage 3 fails with `InconsistentCharge`
and writes nothing beyond the empty document created on first touch. -/
theorem stage3_inconsistent_charge_iff_witness :
    isHalfInt (5/2) = true ∧
    ((spinhalf_initial_state constChain4 id 0 (some (5/2)) "config.yml" emptyFS).2 =
        Except.error Err.inconsistentCharge ↔
      ¬ (((5/2 : ℚ) + ((4 : Nat) : ℚ) / 2).den = 1 ∧
         (-(5/2 : ℚ) + ((4 : Nat) : ℚ) / 2).den = 1)) ∧
    ((spinhalf_initial_state constChain4 id 0 (some (5/2)) "config.yml" emptyFS).2 =
        Except.error Err.inconsistentCharge →
      (spinhalf_initial_state constChain4 id 0 (some (5/2)) "config.yml" emptyFS).1 =
        (loadYaml "config.yml" emptyFS).2) :=
  ⟨isHalfInt_eq_true _ (by norm_num),
    stage3_inconsistent_charge_iff constChain4 id 0 (5/2) "config.yml" emptyFS
      ⟨4, [4], some "Sz"⟩ (isHalfInt_eq_true _ (by norm_num)) rfl (Or.inl rfl)⟩

/-- For integral, non-negative `n_up = q + N/2` and `n_down = -q + N/2`, the
two counts (as naturals) sum to the site count `N`. -/
theorem counts_sum_eq (q : ℚ) (N : Nat)
    (hupden : (q + (N : ℚ) / 2).den = 1) (huppos : 0 ≤ q + (N : ℚ) / 2)
    (hdnden : (-q + (N : ℚ) / 2).den = 1) (hdnpos : 0 ≤ -q + (N : ℚ) / 2) :
    (q + (N : ℚ) / 2).num.toNat + (-q + (N : ℚ) / 2).num.toNat = N := by
  have hab : (q + (N : ℚ) / 2) + (-q + (N : ℚ) / 2) = (N : ℚ) := by ring
  have ha : ((q + (N : ℚ) / 2).num : ℚ) = q + (N : ℚ) / 2 :=
    (Rat.den_eq_one_iff _).mp hupden
  have hb : (((-q + (N : ℚ) / 2).num : ℚ)) = -q + (N : ℚ) / 2 :=
    (Rat.den_eq_one_iff _).mp hdnden
  have hnum : (q + (N : ℚ) / 2).num + (-q + (N : ℚ) / 2).num = (N : Int) := by
    have : (((q + (N : ℚ) / 2).num + (-q + (N : ℚ) / 2).num : Int) : ℚ) =
        ((N : Int) : ℚ) := by
      push_cast
      rw [ha, hb]
      push_cast at hab ⊢
      linarith
    exact_mod_cast this
  have hup0 : 0 ≤ (q + (N : ℚ) / 2).num := Rat.num_nonneg.mpr huppos
  have hdn0 : 0 ≤ (-q + (N : ℚ) / 2).num := Rat.num_nonneg.mpr hdnpos
  omega

/-- C4: for every site count `N` and half-integer charge `q` with
`n_up = q + N/2` and `n_down = N/2 - q` both non-negative integers, stage 3
succeeds, and the persisted `product_state` carries exactly `n_up` "up"
labels and `n_down` "down" labels summing to `N`, nested in exactly the
lattice's native shape.  `shuffle` may be any permutation of its input
(`np.random.shuffle`), and the lattice shape's extents multiply out to the
site count, as with every tenpy lattice. -/
theorem stage3_success_counts_shape (construct : Construct)
    (shuffle : List String → List String) (randUp : Nat) (q : ℚ)
    (path : String) (fs : FS) (info : ModelInfo)
    (hPerm : ∀ l, List.Perm (shuffle l) l)
    (hc : construct (loadYaml path fs).1.model_class
      ((loadYaml path fs).1.model_params.getD []) = Except.ok info)
    (hcons : info.conserve = some "Sz" ∨ info.conserve = none)
    (hshape : info.shape.prod = info.N_sites)
    (hq : isHalfInt q = true)
    (hupden : (q + (info.N_sites : ℚ) / 2).den = 1)
    (huppos : 0 ≤ q + (info.N_sites : ℚ) / 2)
    (hdnden : (-q + (info.N_sites : ℚ) / 2).den = 1)
    (hdnpos : 0 ≤ -q + (info.N_sites : ℚ) / 2) :
    ∃ d ps,
      (spinhalf_initial_state construct shuffle randUp (some q) path fs).2 =
        Except.ok () ∧
      (spinhalf_initial_state construct shuffle randUp (some q) path fs).1 path =
        some d ∧
      d.initial_state_params = some ⟨some "lat_product_state", some ps⟩ ∧
      ps.leaves.count "up" = (q + (info.N_sites : ℚ) / 2).num.toNat ∧
      ps.leaves.count "down" = (-q + (info.N_sites : ℚ) / 2).num.toNat ∧
      ps.leaves.length = info.N_sites ∧
      ps.hasShape info.shape = true := by
  rw [stage3_reduce construct shuffle randUp q path fs info hq hc hcons]
  have hcounts : stage3_counts (some q) randUp info.N_sites =
      Except.ok ((q + (info.N_sites : ℚ) / 2).num,
        (-q + (info.N_sites : ℚ) / 2).num) := by
    unfold stage3_counts
    dsimp only
    rw [if_pos ⟨hupden, hdnden⟩]
  rw [hcounts]
  set init := List.replicate (q + (info.N_sites : ℚ) / 2).num.toNat "up" ++
    List.replicate (-q + (info.N_sites : ℚ) / 2).num.toNat "down" with hinit
  have hlen : (shuffle init).length = info.shape.prod := by
    rw [(hPerm init).length_eq, hinit, List.length_append,
      List.length_replicate, List.length_replicate, hshape]
    exact counts_sum_eq q info.N_sites hupden huppos hdnden hdnpos
  have hres : reshape info.shape (shuffle init) =
      some (nest info.shape (shuffle init)) := by
    unfold reshape
    rw [if_pos hlen]
  dsimp only
  rw [hres]
  have hleaves : (nest info.shape (shuffle init)).leaves = shuffle init :=
    leaves_nest info.shape (shuffle init) hlen
  refine ⟨{ (loadYaml path fs).1 with
      initial_state_params := some ⟨some "lat_product_state",
        some (nest info.shape (shuffle init))⟩ },
    nest info.shape (shuffle init), rfl, by simp [dumpYaml, updateFS], rfl,
    ?_, ?_, ?_, hasShape_nest info.shape (shuffle init) hlen⟩
  · rw [hleaves, (hPerm init).count_eq, hinit]
    simp [List.count_append, List.count_replicate]
  · rw [hleaves, (hPerm init).count_eq, hinit]
    simp [List.count_append, List.count_replicate]
  · rw [hleaves, (hPerm init).length_eq, hinit, List.length_append,
      List.length_replicate, List.length_replicate]
    exact counts_sum_eq q info.N_sites hupden huppos hdnden hdnpos

/-- C4 witness: the end-to-end instance `q = 1.0`, `N = 4`, shape `(4,)`:
stage 3 succeeds and the persisted product state is a length-4 sequence with
exactly three "up" labels and one "down" label, shaped `(4,)`. -/
theorem stage3_success_counts_shape_witness :
    (∀ l : List String, List.Perm (id l) l) ∧
    (([4] : List Nat).prod = (4 : Nat)) ∧
    isHalfInt 1 = true ∧
    ((1 : ℚ) + ((4 : Nat) : ℚ) / 2).den = 1 ∧ (0 ≤ (1 : ℚ) + ((4 : Nat) : ℚ) / 2) ∧
    ((-(1 : ℚ)) + ((4 : Nat) : ℚ) / 2).den = 1 ∧
    (0 ≤ (-(1 : ℚ)) + ((4 : Nat) : ℚ) / 2) ∧
    (∃ d ps,
      (spinhalf_initial_state constChain4 id 0 (some 1) "config.yml" emptyFS).2 =
        Except.ok () ∧
      (spinhalf_initial_state constChain4 id 0 (some 1) "config.yml" emptyFS).1
        "config.yml" = some d ∧
      d.initial_state_params = some ⟨some "lat_product_state", some ps⟩ ∧
      ps.leaves.count "up" = ((1 : ℚ) + ((4 : Nat) : ℚ) / 2).num.toNat ∧
      ps.leaves.count "down" = ((-(1 : ℚ)) + ((4 : Nat) : ℚ) / 2).num.toNat ∧
      ps.leaves.length = (4 : Nat) ∧
      ps.hasShape ([4] : List Nat) = true) := by
  refine ⟨fun l => List.Perm.refl l, rfl, isHalfInt_eq_true _ (by norm_num),
    by norm_num, by norm_num, by norm_num, by norm_num, ?_⟩
  exact stage3_success_counts_shape constChain4 id 0 1 "config.yml" emptyFS
    ⟨4, [4], some "Sz"⟩ (fun l => List.Perm.refl l) rfl (Or.inl rfl) rfl
    (isHalfInt_eq_true _ (by norm_num)) (by norm_num) (by norm_num)
    (by norm_num) (by norm_num)

/-! ### Mutation-discipline lemmas -/

theorem stage1_fs_cases (lt : String) (Lx : Int) (Ly : Option Int)
    (bc_x : String) (bc_y : Option String) (path : String) (fs : FS) :
    (spinhalf_lattice_config lt Lx Ly bc_x bc_y path fs).1 = fs ∨
    (spinhalf_lattice_config lt Lx Ly bc_x bc_y path fs).2 = Except.ok () := by
  unfold spinhalf_lattice_config
  cases latticeDim lt with
  | none => exact Or.inl rfl
  | some d =>
    dsimp only
    by_cases hbc : bc_x ∈ allowedBC
    · rw [if_neg (not_not_intro hbc)]
      by_cases hby : d = 2 ∧ bcOk (if d = 1 then none else bc_y) = false
      · rw [if_pos hby]
        exact Or.inl rfl
      · rw [if_neg hby]
        exact Or.inr rfl
    · rw [if_pos hbc]
      exact Or.inl rfl

theorem stage3_fs_cases (construct : Construct)
    (shuffle : List String → List String) (randUp : Nat) (tot_charge : Option ℚ)
    (path : String) (fs : FS) :
    (spinhalf_initial_state construct shuffle randUp tot_charge path fs).1 = fs ∨
    (spinhalf_initial_state construct shuffle randUp tot_charge path fs).1 =
      (loadYaml path fs).2 ∨
    (spinhalf_initial_state construct shuffle randUp tot_charge path fs).2 =
      Except.ok () := by
  unfold spinhalf_initial_state
  by_cases h0 : chargeInvalid tot_charge = true
  · rw [if_pos h0]
    exact Or.inl rfl
  · rw [if_neg h0]
    unfold stage3_afterLoad
    cases construct (loadYaml path fs).1.model_class
        ((loadYaml path fs).1.model_params.getD []) with
    | error e => exact Or.inr (Or.inl rfl)
    | ok info =>
      dsimp only
      by_cases hcons : info.conserve = some "Sz" ∨ info.conserve = none
      · rw [if_neg (not_not_intro hcons)]
        cases stage3_counts tot_charge randUp info.N_sites with
        | error e => exact Or.inr (Or.inl rfl)
        | ok nn =>
          obtain ⟨n1, n2⟩ := nn
          dsimp only
          cases reshape info.shape
              (shuffle (List.replicate n1.toNat "up" ++
                List.replicate n2.toNat "down")) with
          | none => exact Or.inr (Or.inl rfl)
          | some ps => exact Or.inr (Or.inr rfl)
      · rw [if_pos hcons]
        exact Or.inr (Or.inl rfl)

theorem dmrg_run_no_write (runSim : Doc → Except Err Unit) (path : String) (fs : FS) :
    (dmrg_run runSim path fs).1 = fs := by
  unfold dmrg_run
  cases fs path with
  | none => rfl
  | some data =>
    dsimp only
    cases runSim data with
    | error e => rfl
    | ok u =>
      dsimp only
      cases data.output_filename_params with
      | none => rfl
      | some ofp => rfl

theorem stage2_on_construct_error (construct : Construct)
    (params_dict : List (String × ℚ)) (path : String) (fs : FS) (e : Err)
    (hc : construct (loadYaml path fs).1.model_class
      (stage2_mergedMP (loadYaml path fs).1 params_dict) = Except.error e) :
    spinhalf_model_config construct params_dict path fs =
      (dumpYaml { (loadYaml path fs).1 with
          model_params := some (stage2_mergedMP (loadYaml path fs).1 params_dict) }
        path (loadYaml path fs).2, Except.error e) := by
  unfold spinhalf_model_config
  dsimp only
  rw [hc]

/-- C2 (counterexample): with a model constructor that rejects its
parameters, stage 2 surfaces the `ModelConstructionError` only *after*
persisting the merged parameters: the call fails, yet the document at the
target path — which existed and was empty before the call — now carries the
merged coupling and the `conserve = "best"` request. -/
theorem stage2_persists_before_construction_failure :
    (spinhalf_model_config (fun _ _ => Except.error Err.modelConstructionError)
        [("Jz", 1)] "config.yml" (updateFS emptyFS "config.yml" emptyDoc)).2 =
      Except.error Err.modelConstructionError ∧
    ((updateFS emptyFS "config.yml" emptyDoc) "config.yml").map Doc.model_params =
      some none ∧
    ((spinhalf_model_config (fun _ _ => Except.error Err.modelConstructionError)
        [("Jz", 1)] "config.yml" (updateFS emptyFS "config.yml" emptyDoc)).1
        "config.yml").map Doc.model_params =
      some (some [("Jz", Value.rat 1), ("conserve", Value.str "best")]) := by
  exact ⟨rfl, rfl, rfl⟩

/-- C2 (amended): validation failures precede any document mutation in
stages 1 and 3 (stage 1 fails before even touching the store; stage 3
failures leave the store exactly as `load_yaml` left it, i.e. unchanged but
for the possible creation of an empty document on first touch), stage 4
never fails, and stage 5 never writes; stage 2, however, persists the merged
`model_params` before invoking the model constructor, so a construction
failure leaves the merged parameters written. -/
theorem validation_failures_and_mutation (lt : String) (Lx : Int) (Ly : Option Int)
    (bc_x : String) (bc_y : Option String) (construct : Construct)
    (shuffle : List String → List String) (randUp : Nat)
    (params_dict : List (String × ℚ)) (tot_charge : Option ℚ)
    (chi_max max_sweeps : Int) (runSim : Doc → Except Err Unit)
    (path : String) (fs : FS) :
    (∀ e, (spinhalf_lattice_config lt Lx Ly bc_x bc_y path fs).2 = Except.error e →
      (spinhalf_lattice_config lt Lx Ly bc_x bc_y path fs).1 = fs) ∧
    (∀ e, (spinhalf_initial_state construct shuffle randUp tot_charge path fs).2 =
        Except.error e →
      (spinhalf_initial_state construct shuffle randUp tot_charge path fs).1 = fs ∨
      (spinhalf_initial_state construct shuffle randUp tot_charge path fs).1 =
        (loadYaml path fs).2) ∧
    ((dmrg_and_measu_config chi_max max_sweeps path fs).2 = Except.ok ()) ∧
    ((dmrg_run runSim path fs).1 = fs) ∧
    (∀ e, construct (loadYaml path fs).1.model_class
        (stage2_mergedMP (loadYaml path fs).1 params_dict) = Except.error e →
      spinhalf_model_config construct params_dict path fs =
        (dumpYaml { (loadYaml path fs).1 with
            model_params := some (stage2_mergedMP (loadYaml path fs).1 params_dict) }
          path (loadYaml path fs).2, Except.error e)) := by
  refine ⟨?_, ?_, rfl, dmrg_run_no_write runSim path fs,
    fun e hc => stage2_on_construct_error construct params_dict path fs e hc⟩
  · intro e he
    rcases stage1_fs_cases lt Lx Ly bc_x bc_y path fs with h | h
    · exact h
    · rw [he] at h
      exact absurd h (by simp)
  · intro e he
    rcases stage3_fs_cases construct shuffle randUp tot_charge path fs with h | h | h
    · exact Or.inl h
    · exact Or.inr h
    · rw [he] at h
      exact absurd h (by simp)

/-- C2 witness: concrete failing calls.  An unknown lattice type leaves the
store untouched in stage 1; a failing model constructor in stage 3 leaves
only the empty document created on first touch; stage 4 succeeds on any
input; stage 5 writes nothing; and a failing model constructor in stage 2
still persists the merged parameters. -/
theorem validation_failures_and_mutation_witness :
    ((spinhalf_lattice_config "Bogus" 4 none "open" none "config.yml" emptyFS).1 =
      emptyFS) ∧
    ((spinhalf_initial_state (fun _ _ => Except.error Err.modelConstructionError)
        id 0 none "config.yml" emptyFS).1 = emptyFS ∨
      (spinhalf_initial_state (fun _ _ => Except.error Err.modelConstructionError)
        id 0 none "config.yml" emptyFS).1 = (loadYaml "config.yml" emptyFS).2) ∧
    ((dmrg_and_measu_config 100 10 "config.yml" emptyFS).2 = Except.ok ()) ∧
    ((dmrg_run (fun _ => Except.ok ()) "config.yml" emptyFS).1 = emptyFS) ∧
    (spinhalf_model_config (fun _ _ => Except.error Err.modelConstructionError)
        [("Jz", 1)] "config.yml" emptyFS =
      (dumpYaml { (loadYaml "config.yml" emptyFS).1 with
          model_params := some (stage2_mergedMP (loadYaml "config.yml" emptyFS).1
            [("Jz", 1)]) } "config.yml" (loadYaml "config.yml" emptyFS).2,
       Except.error Err.modelConstructionError)) := by
  obtain ⟨h1, h3, h4, h5, h2⟩ := validation_failures_and_mutation "Bogus" 4 none
    "open" none (fun _ _ => Except.error Err.modelConstructionError) id 0
    [("Jz", 1)] none 100 10 (fun _ => Except.ok ()) "config.yml" emptyFS
  exact ⟨h1 Err.invalidLatticeType rfl, h3 Err.modelConstructionError rfl, h4, h5,
    h2 Err.modelConstructionError rfl⟩

/-- The store after a 2-D stage-1 call (`Square`, 4 × 2) on a fresh path:
the starting point for checking that a later 1-D call removes the 2-D keys. -/
def fsAfter2D : FS :=
  (spinhalf_lattice_config "Square" 4 (some 2) "open" (some "periodic")
    "config.yml" emptyFS).1

/-- C3 witness: a 1-D `Chain` call over the document left by a 2-D `Square`
call succeeds and leaves exactly the 1-D key set. -/
theorem stage1_dimension_keys_witness :
    ((spinhalf_lattice_config "Chain" 4 none "open" (some "periodic")
        "config.yml" fsAfter2D).2 = Except.ok ()) ∧
    (∃ d mp, (spinhalf_lattice_config "Chain" 4 none "open" (some "periodic")
        "config.yml" fsAfter2D).1 "config.yml" = some d ∧
      d.model_params = some mp ∧
      (("Chain" ∈ allowedLattices1D →
        getKey mp "L" = some (Value.int 4) ∧
        getKey mp "bc_x" = some (Value.str "open") ∧
        getKey mp "Lx" = none ∧ getKey mp "Ly" = none ∧ getKey mp "bc_y" = none) ∧
       ("Chain" ∈ allowedLattices2D →
        getKey mp "Lx" = some (Value.int 4) ∧
        getKey mp "Ly" = some (optIntVal none) ∧
        getKey mp "bc_x" = some (Value.str "open") ∧
        getKey mp "bc_y" = some (optStrVal (some "periodic")) ∧
        getKey mp "L" = none))) :=
  ⟨rfl, stage1_dimension_keys "Chain" 4 none "open" (some "periodic")
    "config.yml" fsAfter2D rfl⟩

/-- C9 witness: a `Chain` call with the garbage secondary boundary condition
`bc_y = "garbage"` and a stray `Ly = 7` behaves exactly as the call without
them, succeeds, and persists neither `Ly` nor `bc_y`. -/
theorem stage1_oneD_ignores_secondary_witness :
    ("Chain" ∈ allowedLattices1D) ∧ ("open" ∈ allowedBC) ∧
    (spinhalf_lattice_config "Chain" 4 (some 7) "open" (some "garbage")
        "config.yml" emptyFS =
      spinhalf_lattice_config "Chain" 4 none "open" none "config.yml" emptyFS ∧
    (spinhalf_lattice_config "Chain" 4 (some 7) "open" (some "garbage")
        "config.yml" emptyFS).2 = Except.ok () ∧
    ∃ d mp, (spinhalf_lattice_config "Chain" 4 (some 7) "open" (some "garbage")
        "config.yml" emptyFS).1 "config.yml" = some d ∧
      d.model_params = some mp ∧ getKey mp "Ly" = none ∧ getKey mp "bc_y" = none) :=
  ⟨by decide, by decide,
    stage1_oneD_ignores_secondary "Chain" 4 (some 7) "open" (some "garbage")
      "config.yml" emptyFS (by decide) (by decide)⟩
